import Mathlib

/-!
Verification of the job-orchestration core of the short-video-maker
repository: the Veo external-task client with its retry/backoff and
polling loops and error classification, and the ShortCreator job queue
with its status reads, temp-file lifecycle, timeline-duration
computation, and Veo-only bypass.

Each definition is a shallow embedding of the corresponding TypeScript
function; collaborator calls (HTTP transport, filesystem, speech
synthesis) are modelled as explicit environments supplying each call
outcome.
-/

namespace SVM

/-! ## Error taxonomy, from VeoErrors.ts

The three concrete error classes thrown by the Veo client.
VeoContentPolicyError fixes statusCode to 400 in its constructor;
VeoTimeoutError carries the task id and the attempt count; VeoAPIError
carries HTTP status, provider code, provider message and prompt. -/

inductive VeoErr where
  /-- VeoContentPolicyError: (veoMessage, prompt); statusCode is 400. -/
  | contentPolicy (veoMessage : String) (prompt : String)
  /-- VeoAPIError: (statusCode, veoCode, veoMessage, prompt). -/
  | apiError (statusCode : Option Nat) (veoCode : Option Nat)
      (veoMessage : Option String) (prompt : Option String)
  /-- VeoTimeoutError: (taskId, attempts). -/
  | timeout (taskId : String) (attempts : Nat)
deriving DecidableEq

/-- The statusCode field of the error object: the content-policy
constructor passes 400 to super, the timeout constructor passes
undefined. -/
def VeoErr.statusCode : VeoErr → Option Nat
  | .contentPolicy _ _ => some 400
  | .apiError sc _ _ _ => sc
  | .timeout _ _ => none

/-- isRetryableVeoError from VeoErrors.ts: content-policy errors and
statuses 401/403 are never retried; status 400 and statuses at or above
500 are retried; everything else (including an absent status) is not. -/
def isRetryableVeoError (e : VeoErr) : Bool :=
  match e with
  | .contentPolicy _ _ => false
  | _ =>
    match e.statusCode with
    | some 401 => false
    | some 403 => false
    | some 400 => true
    | some s => decide (500 ≤ s)
    | none => false

/-! ## String helpers mirroring JavaScript truthiness and includes -/

/-- JavaScript a or-else b on strings: the empty string is falsy. -/
def jsOr (a b : String) : String := if a = "" then b else a

/-- pat is a leading segment of s (character lists). -/
def charsLead : List Char → List Char → Bool
  | [], _ => true
  | _ :: _, [] => false
  | a :: as, b :: bs => a = b && charsLead as bs

/-- pat occurs contiguously within s (character lists). -/
def charsSub (pat : List Char) : List Char → Bool
  | [] => charsLead pat []
  | c :: rest => charsLead pat (c :: rest) || charsSub pat rest

/-- String.includes of JavaScript: substring containment. -/
def containsSub (s pat : String) : Bool := charsSub pat.data s.data

/-- ASCII lower-casing of one character, the fragment of the JavaScript
toLowerCase relevant to the ASCII policy phrases. -/
def asciiLower (c : Char) : Char :=
  if 65 ≤ c.toNat ∧ c.toNat ≤ 90 then Char.ofNat (c.toNat + 32) else c

/-- The content-policy detection used at submission and at failed polls:
lower-case the message and look for the phrases content policy, safety,
violat. -/
def containsPolicyPhrase (msg : String) : Bool :=
  let m := msg.data.map asciiLower
  charsSub "content policy".data m || charsSub "safety".data m ||
    charsSub "violat".data m

/-! ## TaskPoller, from VeoAPI.pollTask

Each polling attempt first sleeps, then issues one status GET. The
outcome of one attempt as seen by the loop body. -/

/-- MAX_POLLING_ATTEMPTS in Veo.ts. -/
def MAX_POLLING_ATTEMPTS : Nat := 40

/-- The observable outcome of one poll HTTP call: an HTTP-200 body with
successFlag, optional resultUrls and errorMessage; a transport error
carrying an HTTP status (axios error with a response, dataStr models the
stringified response data); or a pure network error with no response. -/
inductive PollStep where
  | ok (successFlag : Nat) (resultUrls : Option (List String))
      (errorMessage : String)
  | transportHttp (status : Nat) (dataStr : String)
  | transportNet
deriving DecidableEq

/-- What the loop body does with one poll outcome: continue to the next
attempt, or finish with a result. -/
inductive StepRes where
  | cont
  | done (r : Except VeoErr String)

instance : DecidableEq (Except VeoErr String) := fun a b =>
  match a, b with
  | .ok x, .ok y =>
    if h : x = y then .isTrue (by rw [h]) else .isFalse (by simp [h])
  | .error x, .error y =>
    if h : x = y then .isTrue (by rw [h]) else .isFalse (by simp [h])
  | .ok _, .error _ => .isFalse (by simp)
  | .error _, .ok _ => .isFalse (by simp)

instance : DecidableEq StepRes := fun a b =>
  match a, b with
  | .cont, .cont => .isTrue rfl
  | .done x, .done y =>
    if h : x = y then .isTrue (by rw [h])
    else .isFalse (by simp [StepRes.done.injEq, h])
  | .cont, .done _ => .isFalse (by simp)
  | .done _, .cont => .isFalse (by simp)

/-- Classification of a failed poll (successFlag 2 or 3), from
Veo.ts: policy phrases give a content-policy error, otherwise a
VeoAPIError with no HTTP status whose veoCode is the successFlag. -/
def classifyPollFailure (sf : Nat) (errMsg prompt : String) : VeoErr :=
  let m := jsOr errMsg "Unknown error"
  if containsPolicyPhrase m then .contentPolicy m prompt
  else .apiError none (some sf) (some m) (some prompt)

/-- One iteration of the pollTask loop body. successFlag 1 with a
nonempty url list returns the first url; successFlag 1 without one
throws a plain Error that the catch block treats as a network error, so
the loop continues; successFlag 2 or 3 throws a classified VeoError
which the catch block rethrows; transport statuses 401/403/429 are
raised immediately; every other transport failure is logged and the
loop continues. -/
def pollStepRes (prompt : String) : PollStep → StepRes
  | .ok sf urls errMsg =>
    if sf = 1 then
      match urls with
      | some (u :: _) => .done (.ok u)
      | some [] => .cont
      | none => .cont
    else if sf = 2 ∨ sf = 3 then
      .done (.error (classifyPollFailure sf errMsg prompt))
    else
      .cont
  | .transportHttp status dataStr =>
    if status = 401 ∨ status = 403 then
      .done (.error (.apiError (some status) none (some dataStr)
        (some prompt)))
    else if status = 429 then
      .done (.error (.apiError (some status) none none (some prompt)))
    else
      .cont
  | .transportNet => .cont

/-- The bounded polling loop: fuel counts the remaining attempts, i the
zero-based index of the current attempt; exhausting the bound raises the
timeout error carrying the task id and MAX_POLLING_ATTEMPTS. -/
def pollGo (taskId prompt : String) (env : Nat → PollStep) :
    Nat → Nat → Except VeoErr String
  | 0, _ => .error (.timeout taskId MAX_POLLING_ATTEMPTS)
  | fuel + 1, i =>
    match pollStepRes prompt (env i) with
    | .done r => r
    | .cont => pollGo taskId prompt env fuel (i + 1)

/-- VeoAPI.pollTask: up to MAX_POLLING_ATTEMPTS attempts starting at
index 0. -/
def pollTask (taskId prompt : String) (env : Nat → PollStep) :
    Except VeoErr String :=
  pollGo taskId prompt env MAX_POLLING_ATTEMPTS 0

/-! ## ExternalTaskClient, from VeoAPI.generateVideo -/

/-- The observable outcome of one create POST: an HTTP-200 response with
a body code, message and task id together with the poll environment for
the accepted task; an HTTP error status with the error body; or an
error that is neither an axios response error nor a VeoError, which the
catch block rethrows. -/
inductive CreateOutcome where
  | httpOk (code : Nat) (msg : String) (taskId : String)
      (pollEnv : Nat → PollStep)
  | httpErr (status : Nat) (bodyCode : Option Nat) (bodyMsg : String)
  | otherErr

/-- Classification of a non-200 body code in an HTTP-200 create
response: policy phrases give a content-policy error, otherwise a
VeoAPIError whose statusCode and veoCode are both the body code. -/
def classifyCreateBody (code : Nat) (msg prompt : String) : VeoErr :=
  let m := jsOr msg "Unknown error"
  if containsPolicyPhrase m then .contentPolicy m prompt
  else .apiError (some code) (some code) (some m) (some prompt)

/-- The result of one iteration of the generateVideo retry loop: a
result url, a classified VeoError assigned to lastError, or an unknown
error rethrown as-is. -/
inductive AttemptRes where
  | success (url : String)
  | failErr (e : VeoErr)
  | rethrow

/-- One create attempt: an HTTP-layer error is always wrapped as a
VeoAPIError from its status and body (no policy-phrase scan happens on
this path); an HTTP-200 response with body code 200 proceeds to
polling, otherwise the body is classified. -/
def createAttemptRes (prompt : String) : CreateOutcome → AttemptRes
  | .httpOk code msg taskId pollEnv =>
    if code = 200 then
      match pollTask taskId prompt pollEnv with
      | .ok url => .success url
      | .error e => .failErr e
    else
      .failErr (classifyCreateBody code msg prompt)
  | .httpErr status bodyCode bodyMsg =>
    .failErr (.apiError (some status) bodyCode (some bodyMsg)
      (some prompt))
  | .otherErr => .rethrow

/-- The outcome of a whole generateVideo call. -/
inductive GenOutcome where
  | ok (url : String)
  | veoErr (e : VeoErr)
  | unknownErr
deriving DecidableEq

/-- A run record for generateVideo: its outcome, how many create POSTs
were issued, and the list of backoff waits (in ms) taken between
consecutive attempts. -/
structure GenRun where
  outcome : GenOutcome
  createAttempts : Nat
  delays : List Nat
deriving DecidableEq

/-- The generateVideo retry loop: attempt ranges over 0..maxRetries; a
non-retryable error is thrown at once; a retryable error waits
min(1000 * 2 ^ attempt, 10000) ms when attempts remain and otherwise
falls out of the loop, after which lastError is thrown. -/
def genGo (prompt : String) (maxRetries : Nat)
    (env : Nat → CreateOutcome) :
    Nat → Nat → List Nat → Option VeoErr → GenRun
  | 0, attempt, delays, last =>
    { outcome := match last with
        | some e => .veoErr e
        | none => .unknownErr
      createAttempts := attempt
      delays := delays }
  | fuel + 1, attempt, delays, _last =>
    match createAttemptRes prompt (env attempt) with
    | .success url =>
      { outcome := .ok url, createAttempts := attempt + 1,
        delays := delays }
    | .rethrow =>
      { outcome := .unknownErr, createAttempts := attempt + 1,
        delays := delays }
    | .failErr e =>
      if isRetryableVeoError e then
        if attempt < maxRetries then
          genGo prompt maxRetries env fuel (attempt + 1)
            (delays ++ [min (1000 * 2 ^ attempt) 10000]) (some e)
        else
          genGo prompt maxRetries env fuel (attempt + 1) delays (some e)
      else
        { outcome := .veoErr e, createAttempts := attempt + 1,
          delays := delays }

/-- VeoAPI.generateVideo: the loop body runs for attempts 0..maxRetries
inclusive. -/
def generateVideo (prompt : String) (maxRetries : Nat)
    (env : Nat → CreateOutcome) : GenRun :=
  genGo prompt maxRetries env (maxRetries + 1) 0 [] none

/-! ## ShortCreator data model, from types/shorts.ts -/

/-- The visual-source descriptor carried by a scene. -/
structure ImageInput where
  kind : String
  value : String
deriving DecidableEq

/-- SceneInput: narration text, search terms, optional image
descriptor, optional Veo motion prompt. -/
structure SceneInput where
  text : String
  searchTerms : List String
  imageInput : Option ImageInput
  veoPrompt : Option String
deriving DecidableEq

/-- Orientation of the rendered video. -/
inductive Orientation where
  | landscape
  | portrait
deriving DecidableEq

/-- The fields of RenderConfig consulted by the embedded code paths.
paddingBack is in milliseconds. -/
structure RenderConfig where
  veoOnly : Bool := false
  paddingBack : Option ℚ := none
  orientation : Option Orientation := none
deriving DecidableEq

/-- VideoStatus as returned by ShortCreator.status. -/
inductive VideoStatus where
  | processing
  | ready
  | failed
deriving DecidableEq

/-! ## Queue and status, from ShortCreator.ts

The mutable fields of the ShortCreator instance that the status read
consults: the pending queue (the head is the in-flight job) and the set
of produced output files on disk. Queue items are identified by their
job id. -/

/-- path.join of the videos directory with the id plus .mp4 suffix. -/
def videoPathOf (videosDirPath id : String) : String :=
  videosDirPath ++ "/" ++ id ++ ".mp4"

/-- The state visible to status reads. -/
structure SCState where
  videosDirPath : String
  queue : List String
  files : List String
deriving DecidableEq

/-- ShortCreator.getVideoPath. -/
def getVideoPath (s : SCState) (id : String) : String :=
  videoPathOf s.videosDirPath id

/-- ShortCreator.status: processing when the id is anywhere in the
queue, ready when the output file exists, failed otherwise. -/
def status (s : SCState) (id : String) : VideoStatus :=
  if s.queue.contains id then .processing
  else if s.files.contains (getVideoPath s id) then .ready
  else .failed

/-- ShortCreator.addToQueue: push the new job at the back. -/
def addToQueue (s : SCState) (id : String) : SCState :=
  { s with queue := s.queue ++ [id] }

/-- The finally block of ShortCreator.processQueue after the head job
reaches its terminal state: a successful job has written its output
file at the deterministic path, a failed one has written nothing; the
error, if any, was only logged; then the head is shifted off. -/
def processQueueStep (s : SCState) (ok : Bool) : SCState :=
  match s.queue with
  | [] => s
  | j :: rest =>
    { s with queue := rest,
             files := if ok then getVideoPath s j :: s.files
                      else s.files }

/-! ## Timeline duration, from ShortCreator.createShort

The per-scene raw audio durations come from the speech-synthesis
collaborator; the loop extends the last scene by paddingBack / 1000 and
accumulates, and after the loop paddingBack / 1000 is added to the
total again when configured. -/

/-- Truthiness of config.paddingBack: present and nonzero. -/
def padActive (cfg : RenderConfig) : Bool :=
  match cfg.paddingBack with
  | none => false
  | some p => decide (p ≠ 0)

/-- The trailing pad in seconds: paddingBack / 1000. -/
def padSec (cfg : RenderConfig) : ℚ :=
  (cfg.paddingBack.getD 0) / 1000

/-- The per-scene authoritative audio lengths: the scene at position
idx gets the pad added exactly when idx + 1 equals the scene count and
the pad is configured. -/
def durationsWithPad (cfg : RenderConfig) (total : Nat) :
    Nat → List ℚ → List ℚ
  | _, [] => []
  | idx, r :: rest =>
    (if idx + 1 = total ∧ padActive cfg then r + padSec cfg else r)
      :: durationsWithPad cfg total (idx + 1) rest

/-- totalDuration at the point it is passed to the compositor as
durationMs / 1000: the sum of the accumulated (already padded) scene
lengths plus the pad once more when configured. -/
def createShortTotalDuration (cfg : RenderConfig) (raws : List ℚ) : ℚ :=
  (durationsWithPad cfg raws.length 0 raws).sum
    + (if padActive cfg then padSec cfg else 0)

/-! ## Temp-file lifecycle, from ShortCreator.createShort

The loop registers, per scene, a wav and an mp3 path before any ffmpeg
or whisper work, and a video path before the download; the removal loop
runs only after the compositor render returns. A throw at any stage
propagates to processQueue, whose catch block logs and whose finally
block only shifts the queue. -/

/-- The fresh temp id generated for scene index i. -/
def tempId (i : Nat) : String := "tmp" ++ toString i

def wavName (i : Nat) : String := tempId i ++ ".wav"

def mp3Name (i : Nat) : String := tempId i ++ ".mp3"

def vidName (i : Nat) : String := tempId i ++ ".mp4"

/-- The video temp name used by the Veo branch of a scene. -/
def veoVidName (i : Nat) : String := tempId i ++ "_veo.mp4"

/-- How the processing of one scene ends, relative to the temp
registrations it has made and the removals its own error handlers
perform: a throw before any registration (speech synthesis); a throw
after the wav and mp3 paths are pushed (normalize, transcribe, encode);
a throw after the video path is also pushed with no removal (stock
search throws, or the download rejects on a non-200 status); a stock
download network error, whose error handler unlinks the partial video
file it was writing before the rejection propagates; a Veo-branch
download network error, whose handler likewise unlinks the registered
Veo video temp but whose surrounding catch falls back to the still
image so the scene succeeds; or plain success. -/
inductive SceneOutcome where
  | failBeforeTemp
  | failAfterAudioTemp
  | failAfterVideoTemp
  | failDownloadNetErr
  | successVeoFallback
  | success
deriving DecidableEq

/-- The scene loop: returns whether all scenes succeeded, the list of
temp paths registered before the run ended, and the paths unlinked by
download error handlers while the scenes ran. -/
def runScenesC1 : Nat → List SceneOutcome →
    Bool × List String × List String
  | _, [] => (true, [], [])
  | i, o :: rest =>
    match o with
    | .failBeforeTemp => (false, [], [])
    | .failAfterAudioTemp => (false, [wavName i, mp3Name i], [])
    | .failAfterVideoTemp =>
      (false, [wavName i, mp3Name i, vidName i], [])
    | .failDownloadNetErr =>
      (false, [wavName i, mp3Name i, vidName i], [vidName i])
    | .successVeoFallback =>
      let r := runScenesC1 (i + 1) rest
      (r.1, [wavName i, mp3Name i, veoVidName i] ++ r.2.1,
        veoVidName i :: r.2.2)
    | .success =>
      let r := runScenesC1 (i + 1) rest
      (r.1, [wavName i, mp3Name i, vidName i] ++ r.2.1, r.2.2)

/-- A whole createShort run: which temp files were registered, which
were unlinked by download error handlers while the scenes ran, and
which the boundary cleanup loop removed at the end (fs.removeSync
tolerates a path already unlinked during the run). -/
structure CreateRun where
  ok : Bool
  registered : List String
  removedDuring : List String
  removedAtEnd : List String
deriving DecidableEq

/-- createShort with respect to temp files: the removal loop over
tempFiles runs only when every scene and the final render succeeded; a
throw anywhere skips it, leaving only the removals the download error
handlers performed themselves. -/
def createShortRun (renderOk : Bool) (outcomes : List SceneOutcome) :
    CreateRun :=
  let r := runScenesC1 0 outcomes
  if r.1 then
    if renderOk then ⟨true, r.2.1, r.2.2, r.2.1⟩
    else ⟨false, r.2.1, r.2.2, []⟩
  else ⟨false, r.2.1, r.2.2, []⟩

/-! ## Veo-only bypass, from ShortCreator.createShort and
ShortCreator.createVeoOnlyShort -/

/-- Which pipeline createShort dispatches to. -/
inductive Pipeline where
  | veoOnly
  | fiveStage
deriving DecidableEq

/-- The bypass at the top of createShort: config.veoOnly routes to
createVeoOnlyShort. -/
def createShortRoute (cfg : RenderConfig) : Pipeline :=
  if cfg.veoOnly then .veoOnly else .fiveStage

/-- Truthiness of scene.imageInput and scene.imageInput.value. -/
def hasImageValue : Option ImageInput → Bool
  | none => false
  | some i => decide (i.value ≠ "")

/-- The data createVeoOnlyShort hands to the provider and the download:
the effective prompt, the start-frame image, the aspect ratio, and the
path the resulting video is written to. -/
structure VeoOnlyOut where
  prompt : String
  inputImage : String
  aspectRatio : String
  outPath : String
deriving DecidableEq

/-- createVeoOnlyShort: only inputScenes[0] is read; a missing or empty
image value throws; a localhost image is first uploaded through the
upload collaborator; the video is downloaded directly to the final
output path keyed by the job id, with no temp registration. An empty
scene list makes the member access on undefined throw. -/
def createVeoOnlyShort (upload : String → Except String String)
    (videosDirPath videoId : String) (cfg : RenderConfig)
    (inputScenes : List SceneInput) : Except String VeoOnlyOut :=
  match inputScenes.head? with
  | none => .error "TypeError: cannot read properties of undefined"
  | some scene =>
    match scene.imageInput with
    | none => .error "Veo-only mode requires an imageInput"
    | some img =>
      if img.value = "" then
        .error "Veo-only mode requires an imageInput"
      else
        let orientation := cfg.orientation.getD .landscape
        let aspectRatio :=
          if orientation = .landscape then "16:9" else "9:16"
        let prompt :=
          jsOr (scene.veoPrompt.getD "")
            (jsOr scene.text (String.intercalate ", " scene.searchTerms))
        let imgRes : Except String String :=
          if containsSub img.value "localhost" ||
              containsSub img.value "127.0.0.1" then
            upload img.value
          else
            .ok img.value
        match imgRes with
        | .error e => .error e
        | .ok inputImage =>
          .ok ⟨prompt, inputImage, aspectRatio,
            videoPathOf videosDirPath videoId⟩

/-- Whether a run ended in a content-policy classification. -/
def isContentPolicyOutcome : GenOutcome → Bool
  | .veoErr (.contentPolicy _ _) => true
  | _ => false

/-! ## Helper lemmas -/

/-- Unfolding equation for one iteration of the poll loop. -/
lemma pollGo_succ (taskId prompt : String) (env : Nat → PollStep)
    (fuel i : Nat) :
    pollGo taskId prompt env (fuel + 1) i =
      match pollStepRes prompt (env i) with
      | .done r => r
      | .cont => pollGo taskId prompt env fuel (i + 1) := rfl

/-- If every attempt inside the remaining window only continues, the
loop exhausts its fuel and times out. -/
lemma pollGo_all_cont (taskId prompt : String) (env : Nat → PollStep) :
    ∀ (fuel k : Nat),
      (∀ j, k ≤ j → j < k + fuel → pollStepRes prompt (env j) = .cont) →
      pollGo taskId prompt env fuel k =
        .error (.timeout taskId MAX_POLLING_ATTEMPTS)
  | 0, _, _ => rfl
  | fuel + 1, k, h => by
    rw [pollGo_succ, h k (Nat.le_refl k) (by omega)]
    exact pollGo_all_cont taskId prompt env fuel (k + 1)
      (fun j hj hj2 => h j (by omega) (by omega))

/-- If every attempt before position i only continues and attempt i
finishes with r, the loop returns r. -/
lemma pollGo_done_at (taskId prompt : String) (env : Nat → PollStep)
    (r : Except VeoErr String) :
    ∀ (fuel k i : Nat), k ≤ i → i < k + fuel →
      (∀ j, k ≤ j → j < i → pollStepRes prompt (env j) = .cont) →
      pollStepRes prompt (env i) = .done r →
      pollGo taskId prompt env fuel k = r
  | 0, k, i, hk, hi, _, _ => absurd hi (by omega)
  | fuel + 1, k, i, hk, hi, hcont, hdone => by
    rcases Nat.eq_or_lt_of_le hk with heq | hlt
    · subst heq
      rw [pollGo_succ, hdone]
    · rw [pollGo_succ, hcont k (Nat.le_refl k) hlt]
      exact pollGo_done_at taskId prompt env r fuel (k + 1) i hlt
        (by omega) (fun j hj hj2 => hcont j (by omega) hj2) hdone

/-- Unfolding equation for one iteration of the generateVideo retry
loop. -/
lemma genGo_succ (prompt : String) (maxR : Nat)
    (env : Nat → CreateOutcome) (fuel attempt : Nat)
    (delays : List Nat) (last : Option VeoErr) :
    genGo prompt maxR env (fuel + 1) attempt delays last =
      match createAttemptRes prompt (env attempt) with
      | .success url =>
        { outcome := .ok url, createAttempts := attempt + 1,
          delays := delays }
      | .rethrow =>
        { outcome := .unknownErr, createAttempts := attempt + 1,
          delays := delays }
      | .failErr e =>
        if isRetryableVeoError e then
          if attempt < maxR then
            genGo prompt maxR env fuel (attempt + 1)
              (delays ++ [min (1000 * 2 ^ attempt) 10000]) (some e)
          else
            genGo prompt maxR env fuel (attempt + 1) delays (some e)
        else
          { outcome := .veoErr e, createAttempts := attempt + 1,
            delays := delays } := rfl

/-- A first attempt classified as a non-retryable error is thrown at
once: one create call, no backoff. -/
lemma generateVideo_nonretryable_first (prompt : String) (m : Nat)
    (env : Nat → CreateOutcome) (e : VeoErr)
    (h : createAttemptRes prompt (env 0) = .failErr e)
    (hr : isRetryableVeoError e = false) :
    generateVideo prompt m env =
      { outcome := .veoErr e, createAttempts := 1, delays := [] } := by
  have step : genGo prompt m env (m + 1) 0 [] none =
      (if isRetryableVeoError e then
        (if 0 < m then
          genGo prompt m env m 1 [min (1000 * 2 ^ 0) 10000] (some e)
         else genGo prompt m env m 1 [] (some e))
       else
        { outcome := .veoErr e, createAttempts := 1, delays := [] }) := by
    rw [genGo_succ, h]
    rfl
  unfold generateVideo
  rw [step, hr]
  simp

/-- A message containing a policy phrase is nonempty. -/
lemma ne_empty_of_policyPhrase (msg : String)
    (h : containsPolicyPhrase msg = true) : msg ≠ "" := by
  intro he
  rw [he] at h
  exact absurd h (by decide)

/-- Unfolding equation for one scene of the duration loop. -/
lemma durationsWithPad_cons (cfg : RenderConfig) (total idx : Nat)
    (r : ℚ) (rest : List ℚ) :
    durationsWithPad cfg total idx (r :: rest) =
      (if idx + 1 = total ∧ padActive cfg then r + padSec cfg else r)
        :: durationsWithPad cfg total (idx + 1) rest := rfl

/-- Sum of the per-scene authoritative durations: the pad lands on the
final scene exactly once, when configured and the list is nonempty. -/
lemma durationsWithPad_sum (cfg : RenderConfig) :
    ∀ (rs : List ℚ) (idx : Nat),
      (durationsWithPad cfg (idx + rs.length) idx rs).sum =
        rs.sum + (if padActive cfg ∧ rs ≠ [] then padSec cfg else 0)
  | [], idx => by simp [durationsWithPad]
  | r :: rest, idx => by
    rw [durationsWithPad_cons, List.sum_cons, List.sum_cons]
    rcases Decidable.em (rest = []) with hrest | hrest
    · subst hrest
      by_cases hp : padActive cfg
      · simp [durationsWithPad, hp]
      · simp [durationsWithPad, hp]
    · have hlen : rest.length ≠ 0 := by simpa using hrest
      rw [if_neg (by
        rintro ⟨h1, _⟩
        rw [List.length_cons] at h1
        exact hlen (by omega))]
      rw [show idx + (r :: rest).length = (idx + 1) + rest.length from by
        simp only [List.length_cons]
        omega]
      rw [durationsWithPad_sum cfg rest (idx + 1)]
      by_cases hp : padActive cfg
      · rw [if_pos ⟨hp, hrest⟩, if_pos ⟨hp, by simp⟩]
        ring
      · rw [if_neg (by rintro ⟨h1, _⟩; exact hp h1),
          if_neg (by rintro ⟨h1, _⟩; exact hp h1)]
        ring

/-- The video temp name of a scene differs from its wav temp name. -/
lemma vidName_ne_wavName (i : Nat) : vidName i ≠ wavName i := by
  intro h
  have h2 := congrArg String.data h
  rw [vidName, wavName, String.data_append, String.data_append] at h2
  exact absurd (List.append_cancel_left h2) (by decide)

/-- The video temp name of a scene differs from its mp3 temp name. -/
lemma vidName_ne_mp3Name (i : Nat) : vidName i ≠ mp3Name i := by
  intro h
  have h2 := congrArg String.data h
  rw [vidName, mp3Name, String.data_append, String.data_append] at h2
  exact absurd (List.append_cancel_left h2) (by decide)

/-! ## Claim theorems -/

/-- Claim C3, counterexample: a create call that fails at the HTTP
layer with status 400 and a body message containing a content-policy
phrase is NOT classified as a content-policy error and IS retried: the
run makes 3 create attempts with two backoff waits and ends in a
VeoAPIError, so the claim that such an outcome always yields a
non-retryable content-policy error with zero retries is false. -/
theorem veo_http400_policy_retried :
    generateVideo "p" 2
        (fun _ => .httpErr 400 (some 400) "content policy violation") =
      { outcome := .veoErr (.apiError (some 400) (some 400)
          (some "content policy violation") (some "p")),
        createAttempts := 3, delays := [1000, 2000] }
    ∧ (generateVideo "p" 2
        (fun _ => .httpErr 400 (some 400)
          "content policy violation")).createAttempts ≠ 1
    ∧ isContentPolicyOutcome
        (generateVideo "p" 2
          (fun _ => .httpErr 400 (some 400)
            "content policy violation")).outcome = false
    ∧ isRetryableVeoError (.apiError (some 400) (some 400)
        (some "content policy violation") (some "p")) = true :=
  ⟨rfl, by decide, rfl, rfl⟩

/-- Claim C3, amended: a content-policy phrase is only detected on the
two body paths — an HTTP-200 create response whose body code is not
200, and a failed poll — and there it yields a non-retryable
content-policy error with zero retries and zero backoff waits; an
HTTP-level create error is classified by status alone, with no
policy-phrase scan. -/
theorem veo_create_policy_nonretryable (prompt msg taskId : String)
    (code maxRetries : Nat) (pe : Nat → PollStep)
    (env : Nat → CreateOutcome)
    (h0 : env 0 = .httpOk code msg taskId pe)
    (hc : code ≠ 200) (hp : containsPolicyPhrase msg = true) :
    generateVideo prompt maxRetries env =
      { outcome := .veoErr (.contentPolicy msg prompt),
        createAttempts := 1, delays := [] }
    ∧ isRetryableVeoError (.contentPolicy msg prompt) = false
    ∧ (∀ sf em, (sf = 2 ∨ sf = 3) → containsPolicyPhrase em = true →
        pollStepRes prompt (.ok sf (some []) em) =
          .done (.error (.contentPolicy em prompt)))
    ∧ (∀ st bc bm, createAttemptRes prompt (.httpErr st bc bm) =
        .failErr (.apiError (some st) bc (some bm) (some prompt))) := by
  have hm : msg ≠ "" := ne_empty_of_policyPhrase msg hp
  refine ⟨?_, rfl, ?_, fun st bc bm => rfl⟩
  · apply generateVideo_nonretryable_first prompt maxRetries env
      (.contentPolicy msg prompt) ?_ rfl
    rw [h0]
    simp [createAttemptRes, classifyCreateBody, jsOr, hc, hm, hp]
  · intro sf em hsf hem
    have hek : em ≠ "" := ne_empty_of_policyPhrase em hem
    rcases hsf with h2 | h3
    · subst h2
      simp [pollStepRes, classifyPollFailure, jsOr, hek, hem]
    · subst h3
      simp [pollStepRes, classifyPollFailure, jsOr, hek, hem]

/-- Claim C3, witness for the amended theorem. -/
theorem veo_create_policy_nonretryable_witness :
    generateVideo "prompt" 2
        (fun _ => .httpOk 400 "content policy violation" "task"
          (fun _ => .transportNet)) =
      { outcome := .veoErr
          (.contentPolicy "content policy violation" "prompt"),
        createAttempts := 1, delays := [] } :=
  (veo_create_policy_nonretryable "prompt" "content policy violation"
    "task" 400 2 (fun _ => .transportNet)
    (fun _ => .httpOk 400 "content policy violation" "task"
      (fun _ => .transportNet))
    rfl (by decide) (by decide)).1

/-- Claim C6, confirmed: when every create attempt fails at the HTTP
layer with status 500 and maxRetries is 2, the loop makes exactly 3
create attempts, waits min(1000 * 2 ^ attempt, 10000) ms between
consecutive attempts — a non-decreasing sequence — and raises the
classified error of the final attempt. -/
theorem veo_retry_three_attempts (prompt : String)
    (bc : Nat → Option Nat) (bm : Nat → String) :
    generateVideo prompt 2
        (fun i => CreateOutcome.httpErr 500 (bc i) (bm i)) =
      { outcome := .veoErr (.apiError (some 500) (bc 2)
          (some (bm 2)) (some prompt)),
        createAttempts := 3,
        delays := [min (1000 * 2 ^ 0) 10000,
          min (1000 * 2 ^ 1) 10000] }
    ∧ [min (1000 * 2 ^ 0) 10000, min (1000 * 2 ^ 1) 10000]
        = [1000, 2000]
    ∧ List.Chain' (· ≤ ·)
        [min (1000 * 2 ^ 0) 10000, min (1000 * 2 ^ 1) 10000] :=
  ⟨rfl, rfl, by norm_num [List.chain'_cons]⟩

/-- Claim C7, confirmed: a poll-transport error whose status is not
401, 403 or 429 only continues the loop; one with status 401, 403 or
429 ends the run at that attempt with a permanent (non-retryable)
VeoAPIError; and a run in which no attempt produces a terminal result
raises the timeout error carrying the task id and the attempt bound of
40. -/
theorem poll_transport_errors (taskId prompt d : String)
    (env : Nat → PollStep) :
    (∀ s dz, s ≠ 401 → s ≠ 403 → s ≠ 429 →
      pollStepRes prompt (.transportHttp s dz) = .cont)
    ∧ (∀ i, i < MAX_POLLING_ATTEMPTS →
        (∀ j, j < i → pollStepRes prompt (env j) = .cont) →
        ((env i = .transportHttp 401 d →
            pollTask taskId prompt env =
              .error (.apiError (some 401) none (some d) (some prompt)))
         ∧ (env i = .transportHttp 403 d →
            pollTask taskId prompt env =
              .error (.apiError (some 403) none (some d) (some prompt)))
         ∧ (env i = .transportHttp 429 d →
            pollTask taskId prompt env =
              .error (.apiError (some 429) none none (some prompt)))))
    ∧ isRetryableVeoError
        (.apiError (some 401) none (some d) (some prompt)) = false
    ∧ isRetryableVeoError
        (.apiError (some 403) none (some d) (some prompt)) = false
    ∧ isRetryableVeoError
        (.apiError (some 429) none none (some prompt)) = false
    ∧ ((∀ i, i < MAX_POLLING_ATTEMPTS →
          pollStepRes prompt (env i) = .cont) →
        pollTask taskId prompt env =
          .error (.timeout taskId MAX_POLLING_ATTEMPTS)) := by
  refine ⟨?_, ?_, rfl, rfl, rfl, ?_⟩
  · intro s dz h1 h2 h3
    simp [pollStepRes, h1, h2, h3]
  · intro i hi hcont
    refine ⟨?_, ?_, ?_⟩ <;> intro he <;>
      exact pollGo_done_at taskId prompt env _ MAX_POLLING_ATTEMPTS 0 i
        (Nat.zero_le i) (by omega)
        (fun j _ hj2 => hcont j hj2) (by rw [he]; rfl)
  · intro h
    exact pollGo_all_cont taskId prompt env MAX_POLLING_ATTEMPTS 0
      (fun j _ hj2 => h j (by omega))

/-- Claim C7, witness. -/
theorem poll_transport_errors_witness :
    pollStepRes "p" (.transportHttp 500 "x") = .cont
    ∧ pollTask "t" "p" (fun _ => .transportHttp 401 "d") =
        .error (.apiError (some 401) none (some "d") (some "p"))
    ∧ pollTask "t" "p" (fun _ => .transportNet) =
        .error (.timeout "t" 40) := by
  refine ⟨?_, ?_, ?_⟩
  · exact (poll_transport_errors "t" "p" "x"
      (fun _ => .transportNet)).1 500 "x" (by decide) (by decide)
      (by decide)
  · exact ((poll_transport_errors "t" "p" "d"
      (fun _ => .transportHttp 401 "d")).2.1 0 (by decide)
      (fun j hj => absurd hj (Nat.not_lt_zero j))).1 rfl
  · exact (poll_transport_errors "t" "p" "d"
      (fun _ => .transportNet)).2.2.2.2.2 (fun i _ => rfl)

/-- Claim C10, confirmed: a poll body with successFlag 1 but no
nonempty resultUrls list only continues the loop (the plain Error it
throws is swallowed by the transport-error handler), and a run made
entirely of such responses can only end through the attempt-bound
timeout. -/
theorem poll_success_without_urls (taskId prompt : String)
    (env : Nat → PollStep) (em : Nat → String) :
    (∀ e, pollStepRes prompt (.ok 1 none e) = .cont)
    ∧ (∀ e, pollStepRes prompt (.ok 1 (some []) e) = .cont)
    ∧ ((∀ i, i < MAX_POLLING_ATTEMPTS →
          env i = .ok 1 none (em i) ∨ env i = .ok 1 (some []) (em i)) →
        pollTask taskId prompt env =
          .error (.timeout taskId MAX_POLLING_ATTEMPTS)) := by
  refine ⟨fun e => rfl, fun e => rfl, ?_⟩
  intro h
  apply pollGo_all_cont taskId prompt env MAX_POLLING_ATTEMPTS 0
  intro j _ hj2
  rcases h j (by omega) with he | he <;> rw [he] <;> rfl

/-- Claim C10, witness. -/
theorem poll_success_without_urls_witness :
    pollStepRes "p" (.ok 1 none "") = .cont
    ∧ pollTask "t" "p" (fun _ => .ok 1 (some []) "") =
        .error (.timeout "t" 40) := by
  refine ⟨?_, ?_⟩
  · exact (poll_success_without_urls "t" "p"
      (fun _ => .ok 1 (some []) "") (fun _ => "")).1 ""
  · exact (poll_success_without_urls "t" "p"
      (fun _ => .ok 1 (some []) "") (fun _ => "")).2.2
      (fun i _ => Or.inr rfl)

/-- Claim C1, counterexample: a job whose single scene throws after the
wav and mp3 temp paths were registered ends failed with both paths
still registered and nothing removed — the removal loop only runs after
a fully successful render; and a job failing on a download network
error has exactly the partial video file unlinked by the error handler
while its wav and mp3 stay behind, so registered temp resources are
neither all released nor released exactly once on the failure exit
paths. -/
theorem temp_cleanup_skipped_on_failure :
    (createShortRun true [.failAfterAudioTemp]).ok = false
    ∧ (createShortRun true [.failAfterAudioTemp]).registered =
        [wavName 0, mp3Name 0]
    ∧ (createShortRun true [.failAfterAudioTemp]).removedDuring = []
    ∧ (createShortRun true [.failAfterAudioTemp]).removedAtEnd = []
    ∧ (createShortRun true [.failDownloadNetErr]).ok = false
    ∧ (createShortRun true [.failDownloadNetErr]).registered =
        [wavName 0, mp3Name 0, vidName 0]
    ∧ (createShortRun true [.failDownloadNetErr]).removedDuring =
        [vidName 0]
    ∧ (createShortRun true [.failDownloadNetErr]).removedAtEnd = [] :=
  ⟨rfl, rfl, rfl, rfl, rfl, rfl, rfl, rfl⟩

/-- Claim C1, amended: the job-boundary cleanup loop runs only when the
job succeeds, where it attempts every registered path exactly once
(tolerating paths a download error handler already unlinked during the
run); when the job fails, the boundary cleanup never runs — the only
removal on a failure path is the stock download error handler itself
unlinking the single partial video file it was writing before the
scene's throw propagates, which leaves that scene's wav and mp3 (and
every earlier scene's files) registered and unremoved. -/
theorem temp_cleanup_only_on_success (renderOk : Bool)
    (outs rest : List SceneOutcome) (i : Nat) :
    (createShortRun renderOk outs).removedAtEnd =
      (if (createShortRun renderOk outs).ok then
        (createShortRun renderOk outs).registered
       else [])
    ∧ runScenesC1 i (SceneOutcome.failDownloadNetErr :: rest) =
        (false, [wavName i, mp3Name i, vidName i], [vidName i])
    ∧ vidName i ≠ wavName i
    ∧ vidName i ≠ mp3Name i := by
  refine ⟨?_, rfl, vidName_ne_wavName i, vidName_ne_mp3Name i⟩
  unfold createShortRun
  rcases h : runScenesC1 0 outs with ⟨ok, files, early⟩
  cases ok <;> cases renderOk <;> simp [h]

/-- Claim C2, counterexample: one scene with raw audio duration 1 s and
paddingBack 1000 ms gives a timeline duration of 3 s, not the 2 s that
a single application of the pad would produce — the pad is added both
to the last scene and to the total. -/
theorem duration_pad_counted_twice :
    createShortTotalDuration { paddingBack := some 1000 } [1] = 3
    ∧ createShortTotalDuration { paddingBack := some 1000 } [1] ≠
        [(1 : ℚ)].sum + 1000 / 1000 := by
  constructor
  · norm_num [createShortTotalDuration, durationsWithPad, padActive,
      padSec]
  · norm_num [createShortTotalDuration, durationsWithPad, padActive,
      padSec]

/-- Claim C2, amended: with a configured nonzero pad p (in seconds) and
at least one scene, the timeline duration is the sum of the raw scene
durations plus 2 p — p once inside the last scene's authoritative
duration and p once more after the loop; with no pad it is exactly the
raw sum. -/
theorem createShortTotalDuration_closed_form (cfg : RenderConfig)
    (raws : List ℚ) :
    createShortTotalDuration cfg raws =
      raws.sum +
        (if padActive cfg then
          (if raws = [] then padSec cfg else 2 * padSec cfg)
         else 0) := by
  unfold createShortTotalDuration
  have h := durationsWithPad_sum cfg raws 0
  rw [Nat.zero_add] at h
  rw [h]
  rcases Decidable.em (raws = []) with he | he
  · subst he
    by_cases hp : padActive cfg <;> simp [hp]
  · by_cases hp : padActive cfg
    · rw [if_pos ⟨hp, he⟩, if_pos hp, if_pos hp, if_neg he]
      ring
    · rw [if_neg (by rintro ⟨h1, _⟩; exact hp h1), if_neg hp,
        if_neg hp]
      ring

/-- Claim C4, counterexample: with two jobs in the queue, the status
read returns processing for both — a queued-but-not-started job is
indistinguishable from the in-flight head, so it is not the case that
exactly one job reads processing. -/
theorem status_two_processing :
    status ⟨"videos", ["a", "b"], []⟩ "a" = .processing
    ∧ status ⟨"videos", ["a", "b"], []⟩ "b" = .processing
    ∧ ("a" : String) ≠ "b" := by
  refine ⟨rfl, rfl, by decide⟩

/-- Claim C4, amended: every job currently in the queue — in-flight or
still waiting — reads processing; jobs still reach their terminal state
in submission order, since submission appends to the back and each
completion removes exactly the head. -/
theorem queue_status_fifo (s : SCState) (id : String) (ok : Bool) :
    (s.queue.contains id = true → status s id = .processing)
    ∧ (processQueueStep s ok).queue = s.queue.tail
    ∧ (addToQueue s id).queue = s.queue ++ [id] := by
  refine ⟨?_, ?_, rfl⟩
  · intro h
    have hmem : id ∈ s.queue := by simpa using h
    simp [status, hmem]
  · rcases s with ⟨d, q, f⟩
    cases q <;> rfl

/-- Claim C4, witness for the amended theorem. -/
theorem queue_status_fifo_witness :
    status ⟨"videos", ["a", "b"], []⟩ "b" = .processing
    ∧ (processQueueStep ⟨"videos", ["a", "b"], []⟩ true).queue =
        (["a", "b"] : List String).tail
    ∧ (addToQueue ⟨"videos", ["a", "b"], []⟩ "c").queue =
        ["a", "b"] ++ ["c"] :=
  ⟨(queue_status_fifo ⟨"videos", ["a", "b"], []⟩ "b" true).1
      (by decide),
    (queue_status_fifo ⟨"videos", ["a", "b"], []⟩ "b" true).2.1,
    (queue_status_fifo ⟨"videos", ["a", "b"], []⟩ "c" true).2.2⟩

/-- Claim C5: the job-boundary catch block only logs; the ShortCreator
state retains no error record, so after a failed job the state is
exactly what it was before submission and the status read yields the
bare value failed with no structured error available anywhere in the
state. This evaluates the embedded code at the failing input of the
repository's own test (a create request rejected with HTTP 400). -/
theorem failed_job_error_discarded :
    processQueueStep (addToQueue ⟨"videos", [], []⟩ "job1") false =
      ⟨"videos", [], []⟩
    ∧ status (processQueueStep (addToQueue ⟨"videos", [], []⟩ "job1")
        false) "job1" = .failed :=
  ⟨rfl, rfl⟩

/-- Claim C8, confirmed: with config.veoOnly set, createShort routes to
the Veo-only path, which reads only the first scene (the result is
unchanged under any replacement of the remaining scenes), fails when
the first scene has no image descriptor value, and on success writes
the video at the final output path keyed by the job id. -/
theorem veoOnly_first_scene_only (up : String → Except String String)
    (dir id : String) (cfg : RenderConfig) (s s₂ : SceneInput)
    (r r' : List SceneInput) :
    (cfg.veoOnly = true → createShortRoute cfg = .veoOnly)
    ∧ createVeoOnlyShort up dir id cfg (s :: r) =
        createVeoOnlyShort up dir id cfg (s :: r')
    ∧ (hasImageValue s₂.imageInput = false →
        createVeoOnlyShort up dir id cfg (s₂ :: r) =
          .error "Veo-only mode requires an imageInput")
    ∧ (∀ o, createVeoOnlyShort up dir id cfg (s :: r) = .ok o →
        o.outPath = videoPathOf dir id) := by
  refine ⟨?_, rfl, ?_, ?_⟩
  · intro h
    simp [createShortRoute, h]
  · intro h
    rcases him : s₂.imageInput with _ | img
    · simp [createVeoOnlyShort, him]
    · have hv : img.value = "" := by
        have := h
        rw [him] at this
        simpa [hasImageValue] using this
      simp [createVeoOnlyShort, him, hv]
  · intro o ho
    rcases him : s.imageInput with _ | img
    · simp [createVeoOnlyShort, him] at ho
    · rcases Decidable.em (img.value = "") with hv | hv
      · simp [createVeoOnlyShort, him, hv] at ho
      · by_cases hloc : containsSub img.value "localhost" = true ∨
            containsSub img.value "127.0.0.1" = true
        · rcases hupok : up img.value with e | u
          · simp [createVeoOnlyShort, him, hv, hloc, hupok] at ho
          · simp [createVeoOnlyShort, him, hv, hloc, hupok] at ho
            rw [← ho]
        · simp [createVeoOnlyShort, him, hv, hloc] at ho
          rw [← ho]

/-- Claim C8, witness. -/
theorem veoOnly_first_scene_only_witness :
    createShortRoute { veoOnly := true } = .veoOnly
    ∧ createVeoOnlyShort (fun u => .ok u) "videos" "v1"
        { veoOnly := true }
        [⟨"", [], some ⟨"upload", "https://img"⟩, some "pan"⟩,
          ⟨"extra", ["x"], none, none⟩] =
      createVeoOnlyShort (fun u => .ok u) "videos" "v1"
        { veoOnly := true }
        [⟨"", [], some ⟨"upload", "https://img"⟩, some "pan"⟩]
    ∧ createVeoOnlyShort (fun u => .ok u) "videos" "v1"
        { veoOnly := true } [⟨"t", ["x"], none, none⟩,
          ⟨"extra", ["x"], none, none⟩] =
      .error "Veo-only mode requires an imageInput"
    ∧ VeoOnlyOut.outPath
        ⟨"pan", "https://img", "16:9", "videos/v1.mp4"⟩ =
      videoPathOf "videos" "v1" := by
  have h := veoOnly_first_scene_only (fun u => .ok u) "videos" "v1"
    { veoOnly := true }
    ⟨"", [], some ⟨"upload", "https://img"⟩, some "pan"⟩
    ⟨"t", ["x"], none, none⟩
    [⟨"extra", ["x"], none, none⟩] []
  exact ⟨h.1 rfl, h.2.1, h.2.2.1 (by decide),
    h.2.2.2 ⟨"pan", "https://img", "16:9", "videos/v1.mp4"⟩ rfl⟩

/-- Claim C9, confirmed: an id that is nowhere in the queue and whose
deterministic output path is absent from disk reads failed — a job id
that was never submitted is indistinguishable from one that failed. -/
theorem status_unknown_id_failed (s : SCState) (id : String)
    (h1 : s.queue.contains id = false)
    (h2 : s.files.contains (getVideoPath s id) = false) :
    status s id = .failed
    ∧ getVideoPath s id = s.videosDirPath ++ "/" ++ id ++ ".mp4" := by
  constructor
  · have g1 : id ∉ s.queue := by simpa using h1
    have g2 : getVideoPath s id ∉ s.files := by simpa using h2
    simp [status, g1, g2]
  · rfl

/-- Claim C9, witness: an id that was never submitted. -/
theorem status_unknown_id_failed_witness :
    status ⟨"videos", [], []⟩ "ghost" = .failed
    ∧ getVideoPath ⟨"videos", [], []⟩ "ghost" =
        "videos" ++ "/" ++ "ghost" ++ ".mp4" :=
  status_unknown_id_failed ⟨"videos", [], []⟩ "ghost" (by decide)
    (by decide)

end SVM
